import Mathlib

/-!
Verification of the cost-attribution aggregation engine of bq-cost-monitor.

The definitions below are a shallow embedding of the final revision of
`src/queries/cost_query.sql` (the `job_stats` / `table_costs` /
`dataset_costs` / `user_daily_base` / `user_*` / `user_daily_stats` CTE
pipeline), together with the actor-classification logic shared with
`src/dashboard/components/tables.js`.  SQL FLOAT64 arithmetic is modelled
with exact rationals; SQL `NULL` with `Option`; BigQuery's
`ROUND(x, 2)` (round half away from zero) with `round2`.
-/

/-- BigQuery ROUND(x, 2): round to 2 decimal places, halves away from zero. -/
def round2 (q : ℚ) : ℚ :=
  if 0 ≤ q then ((⌊q * 100 + 1 / 2⌋ : ℤ) : ℚ) / 100
  else -(((⌊-q * 100 + 1 / 2⌋ : ℤ) : ℚ) / 100)

/-- SQL `s LIKE CONCAT(chars of suff at the end)` pattern, i.e. a suffix test
(kernel-computable, unlike `String.endsWith`). -/
def strEndsWith (s suff : String) : Bool := suff.data.isSuffixOf s.data

/-- SQL `s LIKE CONCAT(p, wildcard)` pattern, i.e. a leading-literal test
(kernel-computable, unlike `String.startsWith`). -/
def strStartsWith (s p : String) : Bool := p.data.isPrefixOf s.data

/-- The service-account domain suffix tested by
`user_email LIKE` in `job_stats` (cost_query.sql lines 573-577). -/
def saDomainSuffix : String := ".gserviceaccount.com"

/-- The reserved literal that service-account emails may begin with
(cost_query.sql lines 573-577). -/
def saNamePattern : String := "service-"

/-- A BigQuery table reference as found in `referenced_tables` /
`destination_table`: every component may be NULL. -/
structure TableRef where
  project_id : Option String
  dataset_id : Option String
  table_id : Option String
deriving Repr, DecidableEq

/-- An entry of `referenced_tables_detail` (cost_query.sql lines 604-616):
only references whose three components are all non-NULL survive. -/
structure TableDetail where
  project_id : String
  dataset_id : String
  table_id : String
deriving Repr, DecidableEq

/-- One row of `job_stats`: a raw query-execution record.  `date`,
`hour_of_day` and `day_of_week` stand for the values extracted from
`creation_time` by `FORMAT_TIMESTAMP` / `EXTRACT`; `creation_time` itself
is kept as an abstract instant used only for ordering recent queries. -/
structure RawQueryRecord where
  job_id : String
  date : String
  creation_time : ℤ
  hour_of_day : ℤ
  day_of_week : ℤ
  project_id : String
  user_email : Option String
  total_bytes_processed : ℤ
  total_bytes_billed : ℤ
  total_slot_ms : ℤ
  cache_hit : Bool
  has_error : Bool
  destination_table : Option TableRef
  referenced_tables : List TableRef
  query_text : String
deriving Repr, DecidableEq

/-- The `service_account` column of `job_stats` (cost_query.sql lines
572-577): the email itself when it matches one of the two service-account
patterns, NULL otherwise (also NULL when the email is NULL, since SQL
`LIKE` on NULL is not true). -/
def serviceAccount (user_email : Option String) : Option String :=
  match user_email with
  | none => none
  | some e =>
    if strEndsWith e saDomainSuffix then some e
    else if strStartsWith e saNamePattern then some e
    else none

/-- An actor is classified as a service account exactly when
`service_account` is non-NULL. -/
def isServiceAccount (user_email : Option String) : Bool :=
  (serviceAccount user_email).isSome

/-- JavaScript `a || dflt` on a nullable string: NULL and the empty string
are falsy. -/
def jsStringOr (v : Option String) (dflt : String) : String :=
  match v with
  | none => dflt
  | some s => if s = "" then dflt else s

/-- The canonical actor key used by the dashboard
(`tables.js` line 22: `item.service_account || item.user_email || 'Unknown'`). -/
def canonicalKey (user_email : Option String) : String :=
  jsStringOr (serviceAccount user_email) (jsStringOr user_email "Unknown")

/-- SQL NULL-propagating equality on nullable strings: true only when both
sides are non-NULL and equal. -/
def optStrEq : Option String → Option String → Bool
  | some a, some b => a = b
  | _, _ => false

/-- Keep a referenced-table entry only when project, dataset and table are
all non-NULL (the `WHERE ... IS NOT NULL` filter of
`referenced_tables_detail`, cost_query.sql lines 612-615). -/
def completeRef : TableRef → Option TableDetail
  | ⟨some p, some d, some t⟩ => some ⟨p, d, t⟩
  | _ => none

/-- The `referenced_tables_detail` array of a record (cost_query.sql lines
604-616). -/
def referencedTablesDetail (r : RawQueryRecord) : List TableDetail :=
  r.referenced_tables.filterMap completeRef

/-- The per-reference condition of `is_table_rebuild` (cost_query.sql lines
620-622): `ref.table_id = destination_table.table_id AND ref.dataset_id =
destination_table.dataset_id` under SQL NULL semantics. -/
def refMatchesDest (ref dst : TableRef) : Bool :=
  optStrEq ref.table_id dst.table_id && optStrEq ref.dataset_id dst.dataset_id

/-- The `is_table_rebuild` flag of `job_stats` (cost_query.sql lines
617-624): the destination table is non-NULL and appears among the raw
`referenced_tables` by dataset+table equality. -/
def isTableRebuild (r : RawQueryRecord) : Bool :=
  match r.destination_table with
  | none => false
  | some dst => r.referenced_tables.any fun ref => refMatchesDest ref dst

/-- The per-(record, referenced-table) rebuild condition aggregated by
`LOGICAL_OR` into `is_rebuild_operation` (cost_query.sql lines 673-675). -/
def attributionRebuild (r : RawQueryRecord) (td : TableDetail) : Bool :=
  match r.destination_table with
  | none => false
  | some dst =>
    isTableRebuild r && optStrEq dst.dataset_id (some td.dataset_id)
      && optStrEq dst.table_id (some td.table_id)

/-- One (record, referenced table) attribution: a pre-GROUP-BY row of
`table_costs` (cost_query.sql lines 662-688). -/
structure TableAttribution where
  table_project : String
  table_dataset : String
  table_id : String
  bytes_processed_share : ℚ
  bytes_billed_share : ℚ
  is_rebuild : Bool
deriving Repr, DecidableEq

/-- The attribution row produced for one referenced table of a record when
`n` tables survive the completeness filter: the record's bytes divided by
`n` (cost_query.sql lines 676-677). -/
def mkAttribution (r : RawQueryRecord) (n : ℕ) (td : TableDetail) : TableAttribution :=
  { table_project := td.project_id
    table_dataset := td.dataset_id
    table_id := td.table_id
    bytes_processed_share := (r.total_bytes_processed : ℚ) / n
    bytes_billed_share := (r.total_bytes_billed : ℚ) / n
    is_rebuild := attributionRebuild r td }

/-- The Proportional Attributor: the rows that `FROM job_stats js, UNNEST
(js.referenced_tables_detail)` with `WHERE ARRAY_LENGTH(...) > 0`
contributes to `table_costs` for one record (cost_query.sql lines
680-684). -/
def attributeRecord (r : RawQueryRecord) : List TableAttribution :=
  if (referencedTablesDetail r).length = 0 then []
  else (referencedTablesDetail r).map (mkAttribution r (referencedTablesDetail r).length)

/-- The GROUP BY key of `user_daily_base` and all `user_*` rollups:
(date, project_id, user_email).  The SQL key also lists `service_account`,
but that column is computed from `user_email` alone, so it induces the same
grouping and is derived, not stored. -/
structure GroupKey where
  date : String
  project_id : String
  user_email : Option String
deriving Repr, DecidableEq

/-- The grouping key of a record. -/
def recordKey (r : RawQueryRecord) : GroupKey :=
  ⟨r.date, r.project_id, r.user_email⟩

/-- The records of one aggregation bucket: SQL grouping by `recordKey`
(NULL user emails group together, as in SQL GROUP BY). -/
def bucket (records : List RawQueryRecord) (k : GroupKey) : List RawQueryRecord :=
  records.filter fun r => decide (recordKey r = k)

/-- `COUNT(*)` of `user_daily_base` (cost_query.sql line 754). -/
def queryCount (records : List RawQueryRecord) (k : GroupKey) : ℕ :=
  (bucket records k).length

/-- `SUM(CASE WHEN js.cache_hit THEN 1 ELSE 0 END)` (cost_query.sql line 755). -/
def cacheHitCount (records : List RawQueryRecord) (k : GroupKey) : ℕ :=
  ((bucket records k).filter (·.cache_hit)).length

/-- `SUM(CASE WHEN js.error_result IS NOT NULL THEN 1 ELSE 0 END)`
(cost_query.sql line 756). -/
def errorCount (records : List RawQueryRecord) (k : GroupKey) : ℕ :=
  ((bucket records k).filter (·.has_error)).length

/-- `SUM(js.total_bytes_processed)` (cost_query.sql line 757). -/
def totalBytesProcessed (records : List RawQueryRecord) (k : GroupKey) : ℤ :=
  ((bucket records k).map (·.total_bytes_processed)).sum

/-- `SUM(js.total_bytes_billed)` (cost_query.sql line 758). -/
def totalBytesBilled (records : List RawQueryRecord) (k : GroupKey) : ℤ :=
  ((bucket records k).map (·.total_bytes_billed)).sum

/-- `ROUND(SUM(js.total_bytes_billed) / POWER(1024, 4) * @cost_per_terabyte, 2)`
(cost_query.sql line 759). -/
def estimatedCostUsd (cpt : ℚ) (records : List RawQueryRecord) (k : GroupKey) : ℚ :=
  round2 ((totalBytesBilled records k : ℚ) / 1024 ^ 4 * cpt)

/-- `SUM(js.total_slot_ms) / 1000 / 3600` (cost_query.sql line 760). -/
def slotHours (records : List RawQueryRecord) (k : GroupKey) : ℚ :=
  (totalBytesSlot : ℚ) / 1000 / 3600
where totalBytesSlot : ℤ := ((bucket records k).map (·.total_slot_ms)).sum

/-- `ROUND(hits / NULLIF(cnt, 0) * 100, 2)`: the cache-efficiency formula
shared by `user_daily_base` (cost_query.sql line 762) and the final merge
of the pre-aggregated revision (line 515).  `NULLIF` turns a zero divisor
into NULL, which propagates to the whole expression. -/
def cacheHitPctFormula (hits cnt : ℕ) : Option ℚ :=
  if cnt = 0 then none else some (round2 ((hits : ℚ) / (cnt : ℚ) * 100))

/-- The `cache_hit_percentage` column of `user_daily_base`. -/
def cacheHitPercentage (records : List RawQueryRecord) (k : GroupKey) : Option ℚ :=
  cacheHitPctFormula (cacheHitCount records k) (queryCount records k)

/-- One (query_count, cache_hit_count) pair of a pre-aggregated sub-bucket
(a `daily_aggregates` row of the hour x weekday revision,
cost_query.sql lines 298-299). -/
structure SubBucket where
  query_count : ℕ
  cache_hit_count : ℕ
deriving Repr, DecidableEq

/-- The counts a list of records contributes to its sub-bucket:
`COUNT(*)` and `SUM(CASE WHEN cache_hit THEN 1 ELSE 0 END)`. -/
def subBucketStats (l : List RawQueryRecord) : SubBucket :=
  ⟨l.length, (l.filter (·.cache_hit)).length⟩

/-- The final-SELECT merge of sub-buckets (cost_query.sql lines 507-515):
`ROUND(SUM(cache_hit_count) / NULLIF(SUM(query_count), 0) * 100, 2)`. -/
def mergedCacheHitPct (subs : List SubBucket) : Option ℚ :=
  cacheHitPctFormula ((subs.map (·.cache_hit_count)).sum) ((subs.map (·.query_count)).sum)

/-- The daily cache-hit percentage computed directly from a record list. -/
def dailyCacheHitPct (l : List RawQueryRecord) : Option ℚ :=
  cacheHitPctFormula ((l.filter (·.cache_hit)).length) l.length

/-- One row of the `table_costs` CTE (cost_query.sql lines 662-688). -/
structure TableCostRow where
  table_name : String
  table_project : String
  table_dataset : String
  table_id : String
  query_count : ℕ
  is_rebuild_operation : Bool
  bytes_processed : ℚ
  bytes_billed : ℚ
  table_cost_usd : ℚ
deriving Repr, DecidableEq

/-- The GROUP BY key of `table_costs` below one actor-day bucket. -/
def attrTableKey (a : TableAttribution) : String × String × String :=
  (a.table_project, a.table_dataset, a.table_id)

/-- The rows `FROM job_stats js, UNNEST(js.referenced_tables_detail)`
contributes to `table_costs` for one bucket, before GROUP BY. -/
def attributionRows (records : List RawQueryRecord) (k : GroupKey) : List TableAttribution :=
  (bucket records k).flatMap attributeRecord

/-- The attributions of one bucket that fall in the GROUP BY group of the
table identified by `tk` = (project, dataset, table). -/
def tableGroup (records : List RawQueryRecord) (k : GroupKey) (tk : String × String × String) :
    List TableAttribution :=
  (attributionRows records k).filter fun a => decide (attrTableKey a = tk)

/-- The grouped `table_costs` row of one table: `COUNT(*)`, `LOGICAL_OR`
of the rebuild condition, summed shares, and the per-table cost rounded to
2 decimals (cost_query.sql lines 672-679). -/
def mkTableCostRow (cpt : ℚ) (records : List RawQueryRecord) (k : GroupKey)
    (tk : String × String × String) : TableCostRow :=
  { table_name := tk.1 ++ "." ++ tk.2.1 ++ "." ++ tk.2.2
    table_project := tk.1
    table_dataset := tk.2.1
    table_id := tk.2.2
    query_count := (tableGroup records k tk).length
    is_rebuild_operation := (tableGroup records k tk).any (·.is_rebuild)
    bytes_processed := ((tableGroup records k tk).map (·.bytes_processed_share)).sum
    bytes_billed := ((tableGroup records k tk).map (·.bytes_billed_share)).sum
    table_cost_usd :=
      round2 (((tableGroup records k tk).map (·.bytes_billed_share)).sum / 1024 ^ 4 * cpt) }

/-- The `table_costs` rows of one (date, project, actor) key: one grouped
row per distinct referenced table of the bucket (cost_query.sql lines
662-688).  Group order is immaterial: the rows are ranked or summed
downstream. -/
def tableCostRows (cpt : ℚ) (records : List RawQueryRecord) (k : GroupKey) :
    List TableCostRow :=
  (((attributionRows records k).map attrTableKey).dedup).map (mkTableCostRow cpt records k)

/-- One row of the `dataset_costs` CTE (cost_query.sql lines 691-707). -/
structure DatasetCostRow where
  dataset : String
  query_count : ℕ
  bytes_processed : ℚ
  bytes_billed : ℚ
  dataset_cost_usd : ℚ
  rebuild_operations : ℕ
deriving Repr, DecidableEq

/-- `CONCAT(tc.table_project, chr, tc.table_dataset)`: the dataset of a
`table_costs` row (cost_query.sql line 697). -/
def rowDataset (t : TableCostRow) : String :=
  t.table_project ++ "." ++ t.table_dataset

/-- The `table_costs` rows of one bucket that belong to dataset `d`. -/
def datasetGroup (cpt : ℚ) (records : List RawQueryRecord) (k : GroupKey) (d : String) :
    List TableCostRow :=
  (tableCostRows cpt records k).filter fun t => decide (rowDataset t = d)

/-- The grouped `dataset_costs` row of one dataset; note
`dataset_cost_usd` is `SUM(tc.table_cost_usd)`, a sum of the already
rounded per-table costs (cost_query.sql line 701). -/
def mkDatasetCostRow (cpt : ℚ) (records : List RawQueryRecord) (k : GroupKey)
    (d : String) : DatasetCostRow :=
  { dataset := d
    query_count := ((datasetGroup cpt records k d).map (·.query_count)).sum
    bytes_processed := ((datasetGroup cpt records k d).map (·.bytes_processed)).sum
    bytes_billed := ((datasetGroup cpt records k d).map (·.bytes_billed)).sum
    dataset_cost_usd := ((datasetGroup cpt records k d).map (·.table_cost_usd)).sum
    rebuild_operations := ((datasetGroup cpt records k d).filter (·.is_rebuild_operation)).length }

/-- The `dataset_costs` rows of one key: `table_costs` grouped by dataset
(cost_query.sql lines 691-707). -/
def datasetCostRows (cpt : ℚ) (records : List RawQueryRecord) (k : GroupKey) :
    List DatasetCostRow :=
  (((tableCostRows cpt records k).map rowDataset).dedup).map (mkDatasetCostRow cpt records k)

/-- The `ORDER BY dc.dataset_cost_usd DESC` ranking relation of
`user_dataset_costs` (cost_query.sql line 840). -/
def datasetCostGe (a b : DatasetCostRow) : Prop :=
  b.dataset_cost_usd ≤ a.dataset_cost_usd

instance : DecidableRel datasetCostGe := fun a b =>
  inferInstanceAs (Decidable (b.dataset_cost_usd ≤ a.dataset_cost_usd))

instance : IsTotal DatasetCostRow datasetCostGe :=
  ⟨fun a b => le_total b.dataset_cost_usd a.dataset_cost_usd⟩

instance : IsTrans DatasetCostRow datasetCostGe :=
  ⟨fun _ _ _ h1 h2 => le_trans h2 h1⟩

/-- The `ORDER BY tc.table_cost_usd DESC` ranking relation of
`user_table_costs` (cost_query.sql line 875). -/
def tableCostGe (a b : TableCostRow) : Prop :=
  b.table_cost_usd ≤ a.table_cost_usd

instance : DecidableRel tableCostGe := fun a b =>
  inferInstanceAs (Decidable (b.table_cost_usd ≤ a.table_cost_usd))

instance : IsTotal TableCostRow tableCostGe :=
  ⟨fun a b => le_total b.table_cost_usd a.table_cost_usd⟩

instance : IsTrans TableCostRow tableCostGe :=
  ⟨fun _ _ _ h1 h2 => le_trans h2 h1⟩

/-- The `dataset_costs` array of one summary row: `ARRAY_AGG(... ORDER BY
dataset_cost_usd DESC)` with NO LIMIT clause (cost_query.sql lines
832-841).  `insertionSort` is one implementation of the unspecified
tie-order; `validDatasetOrdering` below captures every admissible one. -/
def userDatasetCosts (cpt : ℚ) (records : List RawQueryRecord) (k : GroupKey) :
    List DatasetCostRow :=
  List.insertionSort datasetCostGe (datasetCostRows cpt records k)

/-- One element of the `table_costs` array of a summary row
(cost_query.sql lines 862-874). -/
structure TableCostEntry where
  table_name : String
  table_id : String
  dataset_name : String
  bytes_processed : ℚ
  bytes_billed : ℚ
  table_cost_usd : ℚ
  is_rebuild_operation : Bool
  rebuild_cost_usd : ℚ
  incremental_cost_usd : ℚ
  rebuild_count : ℕ
deriving Repr, DecidableEq

/-- The STRUCT built from a `table_costs` row by `user_table_costs`
(cost_query.sql lines 863-873). -/
def tableEntry (t : TableCostRow) : TableCostEntry :=
  { table_name := t.table_name
    table_id := t.table_id
    dataset_name := t.table_project ++ "." ++ t.table_dataset
    bytes_processed := t.bytes_processed
    bytes_billed := t.bytes_billed
    table_cost_usd := t.table_cost_usd
    is_rebuild_operation := t.is_rebuild_operation
    rebuild_cost_usd := if t.is_rebuild_operation then t.table_cost_usd else 0
    incremental_cost_usd := if t.is_rebuild_operation then 0 else t.table_cost_usd
    rebuild_count := if t.is_rebuild_operation then 1 else 0 }

/-- The `table_costs` array of one summary row: `ARRAY_AGG(STRUCT(...)
ORDER BY tc.table_cost_usd DESC LIMIT 100)` (cost_query.sql lines
862-877). -/
def userTableCosts (cpt : ℚ) (records : List RawQueryRecord) (k : GroupKey) :
    List TableCostEntry :=
  ((List.insertionSort tableCostGe (tableCostRows cpt records k)).take 100).map tableEntry

/-- One element of the `recent_queries` array: a `query_details` row
(cost_query.sql lines 634-659), restricted to the fields the claims
touch.  `query_text` is `SUBSTR(query, 0, 1000)`; `query_cost_usd` is the
per-query rounded cost (line 655). -/
structure QueryDetail where
  job_id : String
  creation_time : ℤ
  total_bytes_processed : ℤ
  query_cost_usd : ℚ
  cache_hit : Bool
  has_error : Bool
  query_text : String
deriving Repr, DecidableEq

/-- The `query_details` row of a record. -/
def queryDetail (cpt : ℚ) (r : RawQueryRecord) : QueryDetail :=
  { job_id := r.job_id
    creation_time := r.creation_time
    total_bytes_processed := r.total_bytes_processed
    query_cost_usd := round2 ((r.total_bytes_billed : ℚ) / 1024 ^ 4 * cpt)
    cache_hit := r.cache_hit
    has_error := r.has_error
    query_text := r.query_text.take 1000 }

/-- The `ORDER BY qd.creation_time DESC` relation of `user_recent_queries`
(cost_query.sql line 911). -/
def recentGe (a b : QueryDetail) : Prop :=
  b.creation_time ≤ a.creation_time

instance : DecidableRel recentGe := fun a b =>
  inferInstanceAs (Decidable (b.creation_time ≤ a.creation_time))

instance : IsTotal QueryDetail recentGe :=
  ⟨fun a b => le_total b.creation_time a.creation_time⟩

instance : IsTrans QueryDetail recentGe :=
  ⟨fun _ _ _ h1 h2 => le_trans h2 h1⟩

/-- The `recent_queries` array of one summary row: most recent first,
`LIMIT 100` (cost_query.sql lines 898-913). -/
def userRecentQueries (cpt : ℚ) (records : List RawQueryRecord) (k : GroupKey) :
    List QueryDetail :=
  (List.insertionSort recentGe ((bucket records k).map (queryDetail cpt))).take 100

/-- One element of `hourly_breakdown` (cost_query.sql lines 776-783). -/
structure HourlyEntry where
  hour_of_day : ℤ
  hourly_queries : ℕ
  hourly_cost : ℚ
deriving Repr, DecidableEq

/-- The `hourly_breakdown` array: the bucket's records grouped by
`hour_of_day` (`hourly_aggregates`, cost_query.sql lines 710-727),
aggregated and ordered by hour (lines 776-783). -/
def hourlyBreakdown (cpt : ℚ) (records : List RawQueryRecord) (k : GroupKey) :
    List HourlyEntry :=
  (List.insertionSort (fun a b : ℤ => a ≤ b)
      (((bucket records k).map (·.hour_of_day)).dedup)).map fun h =>
    { hour_of_day := h
      hourly_queries := ((bucket records k).filter fun r => decide (r.hour_of_day = h)).length
      hourly_cost := round2 (((((bucket records k).filter fun r =>
          decide (r.hour_of_day = h)).map (·.total_bytes_billed)).sum : ℚ) / 1024 ^ 4 * cpt) }

/-- One element of `daily_breakdown` (cost_query.sql lines 804-811). -/
structure WeekdayEntry where
  day_of_week : ℤ
  daily_queries : ℕ
  daily_cost : ℚ
deriving Repr, DecidableEq

/-- The `daily_breakdown` array: the bucket's records grouped by
`day_of_week` (`weekday_aggregates`, cost_query.sql lines 730-744),
aggregated and ordered by weekday (lines 804-811). -/
def weekdayBreakdown (cpt : ℚ) (records : List RawQueryRecord) (k : GroupKey) :
    List WeekdayEntry :=
  (List.insertionSort (fun a b : ℤ => a ≤ b)
      (((bucket records k).map (·.day_of_week)).dedup)).map fun d =>
    { day_of_week := d
      daily_queries := ((bucket records k).filter fun r => decide (r.day_of_week = d)).length
      daily_cost := round2 (((((bucket records k).filter fun r =>
          decide (r.day_of_week = d)).map (·.total_bytes_billed)).sum : ℚ) / 1024 ^ 4 * cpt) }

/-- LEFT JOIN result: the rollup array when the joined CTE has a row for
the key (its grouped row set is non-empty), NULL otherwise. -/
def optNonempty {α : Type} (l : List α) : Option (List α) :=
  if l.isEmpty then none else some l

/-- One row of `user_daily_stats`, the final output shape (cost_query.sql
lines 928-984 and 987-1008).  The five array fields come from LEFT JOINs,
so each is an `Option` that is `none` when the corresponding `user_*`
rollup has no row for the key. -/
structure DailyActorSummary where
  date : String
  project_id : String
  user_email : Option String
  service_account : Option String
  query_count : ℕ
  cache_hit_count : ℕ
  error_count : ℕ
  total_bytes_processed : ℤ
  total_bytes_billed : ℤ
  estimated_cost_usd : ℚ
  slot_hours : ℚ
  cache_hit_percentage : Option ℚ
  hourly_breakdown : Option (List HourlyEntry)
  daily_breakdown : Option (List WeekdayEntry)
  dataset_costs : Option (List DatasetCostRow)
  table_costs : Option (List TableCostEntry)
  recent_queries : Option (List QueryDetail)
deriving Repr, DecidableEq

/-- The Result Assembler: the `user_daily_stats` row of one key
(cost_query.sql lines 928-984). -/
def assemble (cpt : ℚ) (records : List RawQueryRecord) (k : GroupKey) :
    DailyActorSummary :=
  { date := k.date
    project_id := k.project_id
    user_email := k.user_email
    service_account := serviceAccount k.user_email
    query_count := queryCount records k
    cache_hit_count := cacheHitCount records k
    error_count := errorCount records k
    total_bytes_processed := totalBytesProcessed records k
    total_bytes_billed := totalBytesBilled records k
    estimated_cost_usd := estimatedCostUsd cpt records k
    slot_hours := slotHours records k
    cache_hit_percentage := cacheHitPercentage records k
    hourly_breakdown := optNonempty (hourlyBreakdown cpt records k)
    daily_breakdown := optNonempty (weekdayBreakdown cpt records k)
    dataset_costs := optNonempty (userDatasetCosts cpt records k)
    table_costs := optNonempty (userTableCosts cpt records k)
    recent_queries := optNonempty (userRecentQueries cpt records k) }

/-- Admissible outputs of `ARRAY_AGG(... ORDER BY dataset_cost_usd DESC)`
(cost_query.sql lines 832-841): any permutation of the group's rows that
is sorted by descending cost — BigQuery specifies no tie-break order. -/
def validDatasetOrdering (cpt : ℚ) (records : List RawQueryRecord) (k : GroupKey)
    (out : List DatasetCostRow) : Prop :=
  out.Perm (datasetCostRows cpt records k) ∧ out.Sorted datasetCostGe

/-- Admissible outputs of `ARRAY_AGG(STRUCT(...) ORDER BY table_cost_usd
DESC LIMIT 100)` (cost_query.sql lines 862-877). -/
def validTableOrdering (cpt : ℚ) (records : List RawQueryRecord) (k : GroupKey)
    (out : List TableCostEntry) : Prop :=
  ∃ full : List TableCostRow,
    full.Perm (tableCostRows cpt records k) ∧ full.Sorted tableCostGe ∧
      out = (full.take 100).map tableEntry

/-- A concrete baseline record used by the concrete instances below. -/
def baseRec : RawQueryRecord :=
  { job_id := "job0"
    date := "2025-01-01"
    creation_time := 0
    hour_of_day := 0
    day_of_week := 1
    project_id := "proj"
    user_email := some "alice@example.com"
    total_bytes_processed := 0
    total_bytes_billed := 0
    total_slot_ms := 0
    cache_hit := false
    has_error := false
    destination_table := none
    referenced_tables := []
    query_text := "SELECT 1" }

/-- The grouping key of `baseRec`. -/
def key0 : GroupKey := ⟨"2025-01-01", "proj", some "alice@example.com"⟩

/-- A record with a non-empty `referenced_tables` whose only entry lacks a
table_id, so no entry survives the completeness filter. -/
def c1BadRec : RawQueryRecord :=
  { baseRec with
    total_bytes_billed := 100
    referenced_tables := [⟨some "p", some "d", none⟩] }

/-- A record with two complete referenced tables. -/
def c1GoodRec : RawQueryRecord :=
  { baseRec with
    total_bytes_billed := 7
    referenced_tables := [⟨some "p", some "d", some "t1"⟩, ⟨some "p", some "d", some "t2"⟩] }

/-- A destination table equal to the first referenced table of `c2Rec`. -/
def c2Dst : TableRef := ⟨some "p", some "d", some "t1"⟩

/-- A record whose destination table matches its first referenced table. -/
def c2Rec : RawQueryRecord :=
  { baseRec with
    destination_table := some c2Dst
    referenced_tables := [⟨some "p", some "d", some "t1"⟩, ⟨some "p", some "d", some "t2"⟩] }

/-- Eleven records, each referencing one table in a distinct dataset. -/
def c4Recs : List RawQueryRecord :=
  (["a", "b", "c", "d", "e", "f", "g", "h", "i", "j", "k"]).map fun s =>
    { baseRec with job_id := s, referenced_tables := [⟨some "p", some s, some "t"⟩] }

/-- A record billing 879609302 bytes against table p.d.t1: its cost is
just below 0.004 USD, which rounds to 0.00. -/
def c5Rec1 : RawQueryRecord :=
  { baseRec with
    job_id := "q1"
    total_bytes_billed := 879609302
    referenced_tables := [⟨some "p", some "d", some "t1"⟩] }

/-- A second record of the same shape against table p.d.t2. -/
def c5Rec2 : RawQueryRecord :=
  { baseRec with
    job_id := "q2"
    total_bytes_billed := 879609302
    referenced_tables := [⟨some "p", some "d", some "t2"⟩] }

/-- Two records in one dataset: each per-table cost rounds to 0.00, but
the unrounded dataset total is just below 0.008 USD, rounding to 0.01. -/
def c5Recs : List RawQueryRecord := [c5Rec1, c5Rec2]

/-- A one-record input whose record references no tables. -/
def oneRec : List RawQueryRecord := [baseRec]

/-- A zero-cost record referencing dataset p.d1. -/
def c9Rec1 : RawQueryRecord :=
  { baseRec with job_id := "q1", referenced_tables := [⟨some "p", some "d1", some "t"⟩] }

/-- A zero-cost record referencing dataset p.d2. -/
def c9Rec2 : RawQueryRecord :=
  { baseRec with job_id := "q2", referenced_tables := [⟨some "p", some "d2", some "t"⟩] }

/-- Two records producing two dataset rows with exactly equal cost. -/
def c9Recs : List RawQueryRecord := [c9Rec1, c9Rec2]

/-- A one-dataset input, for which the ranking is trivially unique. -/
def c9uRecs : List RawQueryRecord :=
  [{ baseRec with referenced_tables := [⟨some "p", some "d", some "t"⟩] }]

/-- A record whose referenced tables are all incomplete. -/
def c10BadRec : RawQueryRecord :=
  { baseRec with
    referenced_tables := [⟨none, some "d", some "t"⟩, ⟨some "p", some "d", none⟩] }

theorem mem_attributeRecord {r : RawQueryRecord} {a : TableAttribution} :
    a ∈ attributeRecord r ↔
      ∃ td ∈ referencedTablesDetail r,
        a = mkAttribution r (referencedTablesDetail r).length td := by
  unfold attributeRecord
  split
  · next h =>
    rw [List.length_eq_zero] at h
    simp [h]
  · simp [eq_comm]

theorem sum_map_const_rat {α : Type} (l : List α) (c : ℚ) :
    (l.map fun _ => c).sum = l.length * c := by
  induction l with
  | nil => simp
  | cons a t ih => simp [ih]; ring

theorem optStrEq_some_right {x : Option String} {y : String} :
    optStrEq x (some y) = true ↔ x = some y := by
  cases x <;> simp [optStrEq]

theorem attributeRecord_eq_map {r : RawQueryRecord}
    (hn : (referencedTablesDetail r).length ≠ 0) :
    attributeRecord r =
      (referencedTablesDetail r).map (mkAttribution r (referencedTablesDetail r).length) := by
  unfold attributeRecord
  simp [hn]

/-- C1 (amended): for every record with at least one complete
referenced-table entry, each attribution's `bytes_billed_share` is the
record's `bytes_billed` divided by the number of complete entries, and the
shares sum to the record's `bytes_billed` exactly (hence within any
rounding tolerance). -/
theorem c1_conservation (r : RawQueryRecord) (h : referencedTablesDetail r ≠ []) :
    ((attributeRecord r).map (·.bytes_billed_share)).sum = (r.total_bytes_billed : ℚ) ∧
    ∀ a ∈ attributeRecord r,
      a.bytes_billed_share = (r.total_bytes_billed : ℚ) / (referencedTablesDetail r).length := by
  have hn : (referencedTablesDetail r).length ≠ 0 := fun hh => h (List.length_eq_zero.mp hh)
  constructor
  · rw [attributeRecord_eq_map hn, List.map_map]
    rw [show ((fun a : TableAttribution => a.bytes_billed_share) ∘
          mkAttribution r (referencedTablesDetail r).length) =
        (fun _ : TableDetail =>
          (r.total_bytes_billed : ℚ) / (referencedTablesDetail r).length) from rfl]
    rw [sum_map_const_rat, mul_comm]
    exact div_mul_cancel₀ _ (Nat.cast_ne_zero.mpr hn)
  · intro a ha
    obtain ⟨td, _, rfl⟩ := mem_attributeRecord.mp ha
    rfl

/-- C1 fails as stated on a record whose `referenced_tables` is non-empty
but whose only entry lacks a table_id: the record gets no attributions, so
the shares sum to 0 while `bytes_billed` is 100, far outside the 1-unit
tolerance. -/
theorem c1_counterexample :
    c1BadRec.referenced_tables ≠ [] ∧
    ((attributeRecord c1BadRec).map (·.bytes_billed_share)).sum = 0 ∧
    ¬ |((attributeRecord c1BadRec).map (·.bytes_billed_share)).sum -
        (c1BadRec.total_bytes_billed : ℚ)| ≤ 1 := by
  refine ⟨by decide, by decide, ?_⟩
  have h0 : ((attributeRecord c1BadRec).map (·.bytes_billed_share)).sum = 0 := by decide
  have h1 : (c1BadRec.total_bytes_billed : ℚ) = 100 := by norm_num [c1BadRec]
  rw [h0, h1]
  norm_num

/-- Conservation witness at a concrete two-table record. -/
theorem c1_conservation_witness :
    ((attributeRecord c1GoodRec).map (·.bytes_billed_share)).sum =
      (c1GoodRec.total_bytes_billed : ℚ) :=
  (c1_conservation c1GoodRec (by decide)).1

/-- C2: an attribution carries `is_rebuild = true` exactly for the tables
that equal the record's non-null destination by dataset+table equality
(project ignored, as in the source); when the destination is NULL or
matches no raw referenced table, every attribution of the record has
`is_rebuild = false`. -/
theorem c2_rebuild_classification :
    (∀ r : RawQueryRecord, ∀ dst : TableRef, r.destination_table = some dst →
        (∃ E ∈ r.referenced_tables, refMatchesDest E dst = true) →
        ∀ a ∈ attributeRecord r,
          (a.is_rebuild = true ↔
            dst.dataset_id = some a.table_dataset ∧ dst.table_id = some a.table_id)) ∧
    (∀ r : RawQueryRecord,
        (r.destination_table = none ∨
          ∀ dst : TableRef, r.destination_table = some dst →
            ∀ E ∈ r.referenced_tables, refMatchesDest E dst = false) →
        ∀ a ∈ attributeRecord r, a.is_rebuild = false) := by
  constructor
  · intro r dst hdst hex a ha
    obtain ⟨td, _, rfl⟩ := mem_attributeRecord.mp ha
    have hrb : isTableRebuild r = true := by
      obtain ⟨E, hE, hm⟩ := hex
      unfold isTableRebuild
      rw [hdst]
      exact List.any_eq_true.mpr ⟨E, hE, hm⟩
    show attributionRebuild r td = true ↔ _
    unfold attributionRebuild
    rw [hdst]
    simp [hrb, optStrEq_some_right, mkAttribution]
  · intro r hcase a ha
    obtain ⟨td, _, rfl⟩ := mem_attributeRecord.mp ha
    show attributionRebuild r td = false
    rcases hcase with h | h
    · unfold attributionRebuild
      rw [h]
    · cases hd : r.destination_table with
      | none =>
        unfold attributionRebuild
        rw [hd]
      | some dst =>
        have hrb : isTableRebuild r = false := by
          unfold isTableRebuild
          rw [hd]
          simp only [List.any_eq_false]
          intro E hE
          simp [h dst hd E hE]
        unfold attributionRebuild
        rw [hd, hrb]
        simp

/-- Rebuild-classification witness: in `c2Rec` the attribution of the
matching table t1 is flagged as a rebuild. -/
theorem c2_rebuild_witness :
    (mkAttribution c2Rec 2 ⟨"p", "d", "t1"⟩).is_rebuild = true :=
  (c2_rebuild_classification.1 c2Rec c2Dst rfl ⟨c2Dst, by decide, by decide⟩
      (mkAttribution c2Rec 2 ⟨"p", "d", "t1"⟩) (List.Mem.head _)).mpr (by decide)

/-- C10: the attributor keeps only referenced-table entries whose three
components are all non-null, divides the record's bytes by the count of
those complete entries, that count is non-zero whenever any attribution
exists (the division-by-zero branch is unreachable), and a record whose
referenced tables are all incomplete produces no attribution at all. -/
theorem c10_complete_entry_guard :
    (∀ r : RawQueryRecord, ∀ a ∈ attributeRecord r,
        (∃ t ∈ r.referenced_tables,
            completeRef t = some ⟨a.table_project, a.table_dataset, a.table_id⟩) ∧
        a.bytes_billed_share =
          (r.total_bytes_billed : ℚ) / (referencedTablesDetail r).length ∧
        a.bytes_processed_share =
          (r.total_bytes_processed : ℚ) / (referencedTablesDetail r).length ∧
        (referencedTablesDetail r).length ≠ 0) ∧
    (∀ r : RawQueryRecord, (∀ t ∈ r.referenced_tables, completeRef t = none) →
        attributeRecord r = []) := by
  constructor
  · intro r a ha
    obtain ⟨td, htd, rfl⟩ := mem_attributeRecord.mp ha
    refine ⟨?_, rfl, rfl, ?_⟩
    · obtain ⟨t, ht, hct⟩ := List.mem_filterMap.mp htd
      exact ⟨t, ht, hct⟩
    · intro h0
      rw [List.length_eq_zero] at h0
      simp [h0] at htd
  · intro r h
    have hnil : referencedTablesDetail r = [] := by
      unfold referencedTablesDetail
      exact List.filterMap_eq_nil_iff.mpr h
    unfold attributeRecord
    simp [hnil]

/-- Attribution-guard witness: a record whose two referenced tables are
both incomplete yields no attribution. -/
theorem c10_guard_witness : attributeRecord c10BadRec = [] :=
  c10_complete_entry_guard.2 c10BadRec (by decide)

/-- C8: an actor is classified as a service account iff its email ends
with the service-account domain suffix or begins with the reserved
literal; a NULL or empty email is classified as a human user whose
canonical dashboard key is "Unknown". -/
theorem c8_actor_classification :
    (∀ email : Option String,
        isServiceAccount email = true ↔
          ∃ e, email = some e ∧
            (strEndsWith e saDomainSuffix = true ∨ strStartsWith e saNamePattern = true)) ∧
    (∀ email : Option String, email = none ∨ email = some "" →
        isServiceAccount email = false ∧ canonicalKey email = "Unknown") := by
  constructor
  · intro email
    cases email with
    | none => simp [isServiceAccount, serviceAccount]
    | some e =>
      simp only [isServiceAccount, serviceAccount, Option.some.injEq]
      constructor
      · intro h
        by_cases h1 : strEndsWith e saDomainSuffix = true
        · exact ⟨e, rfl, Or.inl h1⟩
        · by_cases h2 : strStartsWith e saNamePattern = true
          · exact ⟨e, rfl, Or.inr h2⟩
          · simp [h1, h2] at h
      · rintro ⟨e2, he, h12⟩
        subst he
        rcases h12 with h1 | h2
        · simp [h1]
        · by_cases h1 : strEndsWith e saDomainSuffix = true <;> simp [h1, h2]
  · intro email h
    rcases h with h | h <;> subst h
    · exact ⟨by decide, by decide⟩
    · exact ⟨by decide, by decide⟩

/-- Classification witness: the empty email is a human user with key
"Unknown". -/
theorem c8_actor_witness :
    isServiceAccount (some "") = false ∧ canonicalKey (some "") = "Unknown" :=
  c8_actor_classification.2 (some "") (Or.inr rfl)

theorem length_filter_flatten {α : Type} (p : α → Bool) (L : List (List α)) :
    (L.flatten.filter p).length = (L.map fun l => (l.filter p).length).sum := by
  induction L with
  | nil => rfl
  | cons a t ih => simp [List.flatten_cons, List.filter_append, ih, Function.comp_def]

/-- C3: merging sub-buckets combines the raw counts first and divides
once — the weighted average — rather than averaging per-bucket
percentages; on the claim's concrete buckets (10 queries, 5 hits) and
(100 queries, 10 hits) it yields 13.64, not the 30 a mean of 50 and 10
would give. -/
theorem c3_weighted_cache_hit :
    (∀ parts : List (List RawQueryRecord),
        mergedCacheHitPct (parts.map subBucketStats) = dailyCacheHitPct parts.flatten) ∧
    mergedCacheHitPct [⟨10, 5⟩, ⟨100, 10⟩] = some (1364 / 100) ∧
    cacheHitPctFormula 5 10 = some 50 ∧
    cacheHitPctFormula 10 100 = some 10 ∧
    (1364 / 100 : ℚ) ≠ (50 + 10) / 2 := by
  refine ⟨?_, ?_, ?_, ?_, by norm_num⟩
  · intro parts
    unfold mergedCacheHitPct dailyCacheHitPct
    rw [List.map_map, List.map_map]
    congr 1
    · exact (length_filter_flatten (·.cache_hit) parts).symm
    · exact (List.length_flatten parts).symm
  · norm_num [mergedCacheHitPct, cacheHitPctFormula, round2]
  · norm_num [cacheHitPctFormula, round2]
  · norm_num [cacheHitPctFormula, round2]

/-- C4 (amended): `table_costs` and `recent_queries` are silently capped
at 100 entries; `dataset_costs` is NOT capped — it always carries one
entry per distinct dataset of the bucket. -/
theorem c4_silent_caps (cpt : ℚ) (records : List RawQueryRecord) (k : GroupKey) :
    (userTableCosts cpt records k).length ≤ 100 ∧
    (userRecentQueries cpt records k).length ≤ 100 ∧
    (userDatasetCosts cpt records k).length = (datasetCostRows cpt records k).length := by
  refine ⟨?_, ?_, (List.perm_insertionSort _ _).length_eq⟩
  · unfold userTableCosts
    rw [List.length_map]
    exact List.length_take_le _ _
  · unfold userRecentQueries
    exact List.length_take_le _ _

/-- C4 fails for `dataset_costs`: a bucket touching eleven datasets gets
eleven `dataset_costs` entries, not at most ten. -/
theorem c4_counterexample :
    (userDatasetCosts 5 c4Recs key0).length = 11 ∧
    ¬ (userDatasetCosts 5 c4Recs key0).length ≤ 10 := by
  have h : (userDatasetCosts 5 c4Recs key0).length = (datasetCostRows 5 c4Recs key0).length :=
    (List.perm_insertionSort _ _).length_eq
  have h11 : (datasetCostRows 5 c4Recs key0).length = 11 := by decide
  exact ⟨h.trans h11, by rw [h.trans h11]; omega⟩

/-- C6 (amended): the cache-hit formula never evaluates a division by
zero — a zero divisor short-circuits through the NULLIF guard — but it
then reports NULL, not 0; moreover a produced bucket always holds at
least one record, so its query_count is at least 1 and its percentage is
non-NULL. -/
theorem c6_zero_count_guard (hits cnt : ℕ) (records : List RawQueryRecord) (k : GroupKey) :
    (cnt = 0 → cacheHitPctFormula hits cnt = none) ∧
    (bucket records k ≠ [] →
      1 ≤ queryCount records k ∧ cacheHitPercentage records k ≠ none) := by
  constructor
  · intro h
    simp [cacheHitPctFormula, h]
  · intro h
    have hq : queryCount records k ≠ 0 := by
      unfold queryCount
      exact fun hh => h (List.length_eq_zero.mp hh)
    exact ⟨Nat.one_le_iff_ne_zero.mpr hq,
      by simp [cacheHitPercentage, cacheHitPctFormula, hq]⟩

/-- C6 fails as stated: at query_count = 0 the formula yields NULL,
not 0. -/
theorem c6_counterexample :
    cacheHitPctFormula 0 0 = none ∧ ¬ cacheHitPctFormula 0 0 = some 0 := by
  constructor <;> simp [cacheHitPctFormula]

/-- Zero-count witness: the formula at a zero divisor, and a concrete
non-empty bucket. -/
theorem c6_zero_count_witness :
    cacheHitPctFormula 3 0 = none ∧
    (1 ≤ queryCount oneRec key0 ∧ cacheHitPercentage oneRec key0 ≠ none) :=
  ⟨(c6_zero_count_guard 3 0 oneRec key0).1 rfl,
    (c6_zero_count_guard 3 0 oneRec key0).2 (by decide)⟩

/-- C5 (amended): per-table costs are rounded to 2 decimals already at
the `table_costs` stage (each stored `table_cost_usd` is the rounding of
that table's own unrounded cost), the dataset rollup `dataset_cost_usd`
is the SUM of those pre-rounded per-table costs — not the rounding of the
unrounded dataset sum — and the actor-level `estimated_cost_usd` is
rounded once from the summed bytes. -/
theorem c5_rounding_points (cpt : ℚ) (records : List RawQueryRecord) (k : GroupKey) :
    (∀ t ∈ tableCostRows cpt records k,
        t.table_cost_usd = round2 (t.bytes_billed / 1024 ^ 4 * cpt)) ∧
    (∀ d ∈ datasetCostRows cpt records k,
        d.dataset_cost_usd =
          ((datasetGroup cpt records k d.dataset).map (·.table_cost_usd)).sum) ∧
    estimatedCostUsd cpt records k =
      round2 ((totalBytesBilled records k : ℚ) / 1024 ^ 4 * cpt) := by
  refine ⟨?_, ?_, rfl⟩
  · intro t ht
    unfold tableCostRows at ht
    obtain ⟨tk, _, rfl⟩ := List.mem_map.mp ht
    rfl
  · intro d hd
    unfold datasetCostRows at hd
    obtain ⟨ds, _, rfl⟩ := List.mem_map.mp hd
    rfl

/-- C5 fails as stated: on `c5Recs` the dataset rollup cost is 0.00 (a
sum of two per-table costs pre-rounded to 0.00), while rounding the
dataset's unrounded byte cost gives 0.01. -/
theorem c5_counterexample :
    ((datasetCostRows 5 c5Recs key0).map fun d =>
        (d.dataset_cost_usd, round2 (d.bytes_billed / 1024 ^ 4 * 5))) = [(0, 1 / 100)] ∧
    (0 : ℚ) ≠ 1 / 100 := by
  constructor
  · rw [show datasetCostRows 5 c5Recs key0 = [mkDatasetCostRow 5 c5Recs key0 "p.d"] from rfl]
    simp only [List.map_cons, List.map_nil, mkDatasetCostRow]
    rw [show datasetGroup 5 c5Recs key0 "p.d" =
        [mkTableCostRow 5 c5Recs key0 ("p", "d", "t1"),
          mkTableCostRow 5 c5Recs key0 ("p", "d", "t2")] from rfl]
    simp only [mkTableCostRow, List.map_cons, List.map_nil, List.sum_cons, List.sum_nil]
    rw [show tableGroup c5Recs key0 ("p", "d", "t1") =
          [mkAttribution c5Rec1 1 ⟨"p", "d", "t1"⟩] from rfl,
        show tableGroup c5Recs key0 ("p", "d", "t2") =
          [mkAttribution c5Rec2 1 ⟨"p", "d", "t2"⟩] from rfl]
    simp only [mkAttribution, List.map_cons, List.map_nil, List.sum_cons, List.sum_nil]
    norm_num [c5Rec1, c5Rec2, baseRec, round2]
  · norm_num

/-- Rounding witness: the stored cost of table p.d.t1 of `c5Recs` equals
the rounding of its own accumulated bytes. -/
theorem c5_rounding_witness :
    (mkTableCostRow 5 c5Recs key0 ("p", "d", "t1")).table_cost_usd =
      round2 ((mkTableCostRow 5 c5Recs key0 ("p", "d", "t1")).bytes_billed / 1024 ^ 4 * 5) :=
  (c5_rounding_points 5 c5Recs key0).1 _ (List.Mem.head _)

theorem optNonempty_eq_none_iff {α : Type} (l : List α) : optNonempty l = none ↔ l = [] := by
  cases l <;> simp [optNonempty]

theorem insertionSort_eq_nil_iff {α : Type} {r : α → α → Prop} [DecidableRel r]
    {l : List α} : List.insertionSort r l = [] ↔ l = [] := by
  constructor
  · intro h
    have hp := List.perm_insertionSort r l
    rw [h] at hp
    exact hp.symm.eq_nil
  · intro h
    rw [h]
    rfl

/-- C7 (amended): when the dataset or table rollup has no row for a key,
the corresponding field of the assembled summary is NULL (`none`), not an
empty list; the recent-queries, hourly and weekday rollups always have a
row for every key whose bucket is non-empty, so only the two cost arrays
can be NULL. -/
theorem c7_assembler_defaults (cpt : ℚ) (records : List RawQueryRecord) (k : GroupKey) :
    (datasetCostRows cpt records k = [] → (assemble cpt records k).dataset_costs = none) ∧
    (tableCostRows cpt records k = [] → (assemble cpt records k).table_costs = none) ∧
    (bucket records k ≠ [] →
      (assemble cpt records k).recent_queries ≠ none ∧
      (assemble cpt records k).hourly_breakdown ≠ none ∧
      (assemble cpt records k).daily_breakdown ≠ none) := by
  refine ⟨?_, ?_, ?_⟩
  · intro h
    show optNonempty (userDatasetCosts cpt records k) = none
    rw [optNonempty_eq_none_iff]
    unfold userDatasetCosts
    rw [insertionSort_eq_nil_iff]
    exact h
  · intro h
    show optNonempty (userTableCosts cpt records k) = none
    rw [optNonempty_eq_none_iff]
    unfold userTableCosts
    rw [h]
    rfl
  · intro h
    refine ⟨?_, ?_, ?_⟩
    · show optNonempty (userRecentQueries cpt records k) ≠ none
      rw [Ne, optNonempty_eq_none_iff]
      unfold userRecentQueries
      rw [List.take_eq_nil_iff]
      rintro (h100 | hnil)
      · exact absurd h100 (by norm_num)
      · rw [insertionSort_eq_nil_iff, List.map_eq_nil_iff] at hnil
        exact h hnil
    · show optNonempty (hourlyBreakdown cpt records k) ≠ none
      rw [Ne, optNonempty_eq_none_iff]
      unfold hourlyBreakdown
      rw [List.map_eq_nil_iff, insertionSort_eq_nil_iff]
      intro hnil
      rw [List.dedup_eq_nil, List.map_eq_nil_iff] at hnil
      exact h hnil
    · show optNonempty (weekdayBreakdown cpt records k) ≠ none
      rw [Ne, optNonempty_eq_none_iff]
      unfold weekdayBreakdown
      rw [List.map_eq_nil_iff, insertionSort_eq_nil_iff]
      intro hnil
      rw [List.dedup_eq_nil, List.map_eq_nil_iff] at hnil
      exact h hnil

/-- C7 fails as stated: for a bucket whose single record references no
tables, the assembled `dataset_costs` is NULL, not the empty list. -/
theorem c7_counterexample :
    (assemble 5 oneRec key0).dataset_costs = none ∧
    (assemble 5 oneRec key0).dataset_costs ≠ some [] ∧
    bucket oneRec key0 ≠ [] := by
  refine ⟨rfl, ?_, by decide⟩
  rw [show (assemble 5 oneRec key0).dataset_costs = none from rfl]
  simp

/-- Assembler-defaults witness at the concrete no-tables bucket. -/
theorem c7_assembler_witness :
    (assemble 5 oneRec key0).dataset_costs = none ∧
    (assemble 5 oneRec key0).recent_queries ≠ none :=
  ⟨(c7_assembler_defaults 5 oneRec key0).1 rfl,
    ((c7_assembler_defaults 5 oneRec key0).2.2 (by decide)).1⟩

theorem sortedPermEqOfNodupKeys {α : Type} (f : α → ℚ) :
    ∀ l₁ l₂ : List α, l₁.Perm l₂ → l₁.Sorted (fun a b => f b ≤ f a) →
      l₂.Sorted (fun a b => f b ≤ f a) → (l₁.map f).Nodup → l₁ = l₂ := by
  intro l₁
  induction l₁ with
  | nil =>
    intro l₂ hp _ _ _
    exact (hp.symm.eq_nil).symm
  | cons a t ih =>
    intro l₂ hp hs₁ hs₂ hnd
    cases l₂ with
    | nil => exact absurd hp.eq_nil (List.cons_ne_nil a t)
    | cons b t₂ =>
      have hfnd : f a ∉ t.map f := (List.nodup_cons.mp (by simpa using hnd)).1
      have hab : a = b := by
        have ha : a ∈ b :: t₂ := hp.mem_iff.mp (List.mem_cons_self a t)
        rcases List.mem_cons.mp ha with h | hat₂
        · exact h
        · have hb : b ∈ a :: t := hp.mem_iff.mpr (List.mem_cons_self b t₂)
          rcases List.mem_cons.mp hb with h | hbt
          · exact h.symm
          · have h1 : f b ≤ f a := List.rel_of_sorted_cons hs₁ b hbt
            have h2 : f a ≤ f b := List.rel_of_sorted_cons hs₂ a hat₂
            have hmem : f a ∈ t.map f := by
              rw [le_antisymm h2 h1]
              exact List.mem_map_of_mem f hbt
            exact absurd hmem hfnd
      subst hab
      have ht : t = t₂ :=
        ih t₂ hp.cons_inv hs₁.of_cons hs₂.of_cons (List.nodup_cons.mp (by simpa using hnd)).2
      rw [ht]

/-- C9 (amended): every admissible `ARRAY_AGG(... ORDER BY cost DESC)`
output is a descending-cost permutation of the group rows (and
`insertionSort` realizes one), but the order of equal-cost entries is not
pinned by the query; the output order is uniquely determined (hence
run-independent) exactly when the cost values are pairwise distinct —
shown for both `dataset_costs` and `table_costs`. -/
theorem c9_tie_order (cpt : ℚ) (records : List RawQueryRecord) (k : GroupKey) :
    validDatasetOrdering cpt records k (userDatasetCosts cpt records k) ∧
    (∀ out₁ out₂, validDatasetOrdering cpt records k out₁ →
      validDatasetOrdering cpt records k out₂ →
      ((datasetCostRows cpt records k).map (·.dataset_cost_usd)).Nodup → out₁ = out₂) ∧
    (∀ out₁ out₂, validTableOrdering cpt records k out₁ →
      validTableOrdering cpt records k out₂ →
      ((tableCostRows cpt records k).map (·.table_cost_usd)).Nodup → out₁ = out₂) := by
  refine ⟨⟨List.perm_insertionSort _ _, List.sorted_insertionSort _ _⟩, ?_, ?_⟩
  · rintro out₁ out₂ ⟨hp₁, hs₁⟩ ⟨hp₂, hs₂⟩ hnd
    have hnd₁ : (out₁.map (·.dataset_cost_usd)).Nodup := ((hp₁.map _).nodup_iff).mpr hnd
    exact sortedPermEqOfNodupKeys (fun x => x.dataset_cost_usd) out₁ out₂
      (hp₁.trans hp₂.symm) (by exact hs₁) (by exact hs₂) hnd₁
  · rintro out₁ out₂ ⟨f₁, hp₁, hs₁, rfl⟩ ⟨f₂, hp₂, hs₂, rfl⟩ hnd
    have hnd₁ : (f₁.map (·.table_cost_usd)).Nodup := ((hp₁.map _).nodup_iff).mpr hnd
    have hf : f₁ = f₂ := sortedPermEqOfNodupKeys (fun x => x.table_cost_usd) f₁ f₂
      (hp₁.trans hp₂.symm) (by exact hs₁) (by exact hs₂) hnd₁
    rw [hf]

/-- C9 fails as stated: `c9Recs` gives two dataset rows of exactly equal
cost, and both the grouped order and its reverse are admissible outputs
of the ARRAY_AGG ranking, so the code does not pin equal-cost entries to
the input order (nor to any single order). -/
theorem c9_counterexample :
    validDatasetOrdering 5 c9Recs key0 (datasetCostRows 5 c9Recs key0) ∧
    validDatasetOrdering 5 c9Recs key0 ((datasetCostRows 5 c9Recs key0).reverse) ∧
    (datasetCostRows 5 c9Recs key0).reverse ≠ datasetCostRows 5 c9Recs key0 := by
  have hrows : datasetCostRows 5 c9Recs key0 =
      [mkDatasetCostRow 5 c9Recs key0 "p.d1", mkDatasetCostRow 5 c9Recs key0 "p.d2"] := rfl
  have hc1 : (mkDatasetCostRow 5 c9Recs key0 "p.d1").dataset_cost_usd = 0 := by
    rw [show (mkDatasetCostRow 5 c9Recs key0 "p.d1").dataset_cost_usd =
        ((datasetGroup 5 c9Recs key0 "p.d1").map (·.table_cost_usd)).sum from rfl]
    rw [show datasetGroup 5 c9Recs key0 "p.d1" =
        [mkTableCostRow 5 c9Recs key0 ("p", "d1", "t")] from rfl]
    simp only [mkTableCostRow, List.map_cons, List.map_nil, List.sum_cons, List.sum_nil]
    rw [show tableGroup c9Recs key0 ("p", "d1", "t") =
        [mkAttribution c9Rec1 1 ⟨"p", "d1", "t"⟩] from rfl]
    simp only [mkAttribution, List.map_cons, List.map_nil, List.sum_cons, List.sum_nil]
    norm_num [c9Rec1, baseRec, round2]
  have hc2 : (mkDatasetCostRow 5 c9Recs key0 "p.d2").dataset_cost_usd = 0 := by
    rw [show (mkDatasetCostRow 5 c9Recs key0 "p.d2").dataset_cost_usd =
        ((datasetGroup 5 c9Recs key0 "p.d2").map (·.table_cost_usd)).sum from rfl]
    rw [show datasetGroup 5 c9Recs key0 "p.d2" =
        [mkTableCostRow 5 c9Recs key0 ("p", "d2", "t")] from rfl]
    simp only [mkTableCostRow, List.map_cons, List.map_nil, List.sum_cons, List.sum_nil]
    rw [show tableGroup c9Recs key0 ("p", "d2", "t") =
        [mkAttribution c9Rec2 1 ⟨"p", "d2", "t"⟩] from rfl]
    simp only [mkAttribution, List.map_cons, List.map_nil, List.sum_cons, List.sum_nil]
    norm_num [c9Rec2, baseRec, round2]
  refine ⟨⟨List.Perm.refl _, ?_⟩, ⟨List.reverse_perm _, ?_⟩, ?_⟩
  · rw [hrows]
    simp [List.sorted_cons, datasetCostGe, hc1, hc2]
  · rw [hrows]
    simp [List.sorted_cons, datasetCostGe, hc1, hc2]
  · rw [hrows]
    intro h
    have hmap := congrArg (List.map (·.dataset)) h
    simp only [List.reverse_cons, List.reverse_nil, List.nil_append, List.cons_append,
      List.map_cons, List.map_nil] at hmap
    exact absurd hmap (by decide)

/-- Distinct-cost determinism witness: on a single-dataset input the
canonical order and the group order coincide. -/
theorem c9_tie_order_witness :
    userDatasetCosts 5 c9uRecs key0 = datasetCostRows 5 c9uRecs key0 :=
  (c9_tie_order 5 c9uRecs key0).2.1 _ _
    (c9_tie_order 5 c9uRecs key0).1
    ⟨List.Perm.refl _,
      by rw [show datasetCostRows 5 c9uRecs key0 =
            [mkDatasetCostRow 5 c9uRecs key0 "p.d"] from rfl]
         exact List.sorted_singleton _⟩
    (by rw [show datasetCostRows 5 c9uRecs key0 =
          [mkDatasetCostRow 5 c9uRecs key0 "p.d"] from rfl]
        exact List.nodup_singleton _)
